import Mathlib

/-!
Verification development for `carton/cart.py` (django-carton fork): a
session-persisted shopping cart.  The Python module is shallowly embedded:

* `Product` models a resolved product entity (a Django model instance); its
  `module` field stands for the fully-qualified
  `"{__class__.__module__}.{__class__.__name__}"` string, and structural
  equality models Django model equality (same class, same pk).  The objects
  passed into `Cart.add` / `Cart.set_quantity` carry `product_type`,
  `product_source_id`, `get_module_for_product_type()` and `pk`; these are
  modelled by the same structure (`ptype`, `id`, `module`, `Product.pk`).
* Python `dict` becomes an association list with first-occurrence lookup,
  in-place update on existing keys and append on fresh keys.  Dict keys in
  `_items_dict` are either composite strings `"{product_type}-{id}"` or — in
  the buggy delete of `set_quantity` — the integer `product.pk`; the `Key`
  type keeps the two apart exactly as Python keeps `str` and `int` keys apart.
* `Decimal` becomes `Rat`: `Decimal(str(price))` round-trips exactly, which is
  the identity in this model.
* Exceptions (`ValueError`, `KeyError`, `NameError`) are explicit: every
  mutating operation returns the state at the point of the raise together
  with an optional error, since in Python the cart and session objects
  survive an exception.
* The product-resolution collaborator
  (`getattr(import_module(module), package).objects.get(pk=...)`) is external
  to the repository; following the spec's interface contract it returns the
  live entity or a not-found signal, modelled as `Option Product` (the code's
  `if item:` guard treats the not-found signal as falsy).
-/

namespace Carton

/-- A product entity. `module` is the fully-qualified type identifier string,
`ptype` the `product_type` discriminator tag, `id` the primary key. -/
structure Product where
  id : Nat
  ptype : String
  module : String
  name : String
  title : String
deriving DecidableEq, Repr

/-- Django model `pk` attribute, an alias of the integer primary key `id`. -/
def Product.pk (p : Product) : Int :=
  (p.id : Int)

/-- Modelled from the spec: `settings.PRODUCT_TYPE.Resource` (the settings
module is not under src/).  Only the identity of the tag matters: one product
type uses the `title` field as display name, the others use `name`. -/
def resourceTag : String := "Resource"

/-- Modelled from the spec: `carton_settings.CART_SESSION_KEY`, the default
slot for the serialized cart in the store (`carton/settings.py` is not under
src/). -/
def CART_SESSION_KEY : String := "CART"

/-- A Python dict key of `_items_dict`: composite string keys
`"{product_type}-{id}"`, or the integer `product.pk` used by the delete in
`set_quantity`. A string key and an int key are never equal. -/
inductive Key where
  | s (v : String)
  | i (v : Int)
deriving DecidableEq, Repr

/-- Python exceptions that `cart.py` can raise. -/
inductive PyErr where
  | valueError (msg : String)
  | keyError (k : Key)
  | nameError (n : String)
deriving DecidableEq, Repr

/-- CartItem: product, product-type tag, quantity and unit price, plus the
display name computed in `__init__`. -/
structure CartItem where
  name : String
  product : Product
  product_type : String
  quantity : Int
  price : Rat
deriving DecidableEq, Repr

/-- CartItem construction (`CartItem.__init__`): the display name is
`product.title` for the Resource product type and `product.name` otherwise;
`int(quantity)` and `Decimal(str(price))` are identities in this model. -/
def CartItem.make (product : Product) (product_type : String) (quantity : Int)
    (price : Rat) : CartItem :=
  { name := if product_type = resourceTag then product.title else product.name
    product := product
    product_type := product_type
    quantity := quantity
    price := price }

/-- Derived composite key `"{product_type}-{product.id}"`. -/
def CartItem.unique_id (it : CartItem) : String :=
  it.product_type ++ "-" ++ toString it.product.id

/-- Subtotal `price * quantity`. -/
def CartItem.subtotal (it : CartItem) : Rat :=
  it.price * (it.quantity : Rat)

/-- Serializable record produced by `CartItem.to_dict`. -/
structure ItemDict where
  name : String
  product_module : String
  product_type : String
  product_source_id : Nat
  quantity : Int
  price : Rat
deriving DecidableEq, Repr

/-- CartItem.to_dict.  The `name` entry reads the bare variable `product`
(not `self.product`) in the non-Resource branch, which raises `NameError` in
Python since no such name is in scope; the record is only produced for
Resource-type items. -/
def CartItem.to_dict (it : CartItem) : Except PyErr ItemDict :=
  if it.product_type = resourceTag then
    .ok { name := it.product.title
          product_module := it.product.module
          product_type := it.product_type
          product_source_id := it.product.id
          quantity := it.quantity
          price := it.price }
  else
    .error (.nameError "product")

/-- Python dict read: the binding of the key, `none` when absent.  All dicts
of the module (the items mapping, the serialized representation, the session)
are modelled as association lists with unique keys. -/
def dictGet {α β : Type} [DecidableEq α] : List (α × β) → α → Option β
  | [], _ => none
  | kv :: rest, k => if kv.1 = k then some kv.2 else dictGet rest k

/-- Python dict write `d[k] = v`: replace the binding in place when the key
is present, append a fresh binding otherwise. -/
def dictSet {α β : Type} [DecidableEq α] : List (α × β) → α → β → List (α × β)
  | [], k, v => [(k, v)]
  | kv :: rest, k, v => if kv.1 = k then (k, v) :: rest else kv :: dictSet rest k v

/-- Removal of the binding of a key (used by `del` once presence is known). -/
def dictErase {α β : Type} [DecidableEq α] : List (α × β) → α → List (α × β)
  | [], _ => []
  | kv :: rest, k => if kv.1 = k then rest else kv :: dictErase rest k

/-- The `_items_dict` mapping. -/
abbrev Entries := List (Key × CartItem)

/-- Python `del d[k]` on the items mapping: `KeyError` when the key is
absent. -/
def delE (es : Entries) (k : Key) : Except PyErr Entries :=
  match dictGet es k with
  | some _ => .ok (dictErase es k)
  | none => .error (.keyError k)

/-- The serialized cart representation: composite string key to record. -/
abbrev SerializedRep := List (String × ItemDict)

/-- The external store ("session"): a string-keyed mapping holding serialized
carts, plus the `modified` dirty flag. -/
structure Session where
  data : List (String × SerializedRep)
  modified : Bool
deriving DecidableEq, Repr

/-- The product-resolution collaborator: fully-qualified module string and
primary key to the live product, or `none` as the not-found signal. -/
abbrev Resolver := String → Nat → Option Product

/-- Cart state: the `_items_dict` mapping and the session key.  The session
object the Python cart holds a reference to is passed explicitly to each
operation. -/
structure Cart where
  entries : Entries
  session_key : String
deriving DecidableEq, Repr

/-- Composite key string used by `add` / `set_quantity`:
`"{product.product_type}-{product.product_source_id}"`. -/
def prodKey (p : Product) : String :=
  p.ptype ++ "-" ++ toString p.id

/-- The rebuild loop of `Cart.__init__`: for each serialized entry, resolve
the product; when it resolves, store the rebuilt `CartItem` under the stored
key, and silently skip it otherwise. -/
def rebuildLoop (resolve : Resolver) : SerializedRep → Entries → Entries
  | [], es => es
  | (k, v) :: rest, es =>
    match resolve v.product_module v.product_source_id with
    | some item =>
        rebuildLoop resolve rest
          (dictSet es (Key.s k) (CartItem.make item v.product_type v.quantity v.price))
    | none => rebuildLoop resolve rest es

/-- Cart construction (`Cart.__init__`): resolve the session key (a falsy
argument falls back to `CART_SESSION_KEY`), and if the store holds a
serialized cart there, rebuild the mapping from it. -/
def Cart.init (resolve : Resolver) (session : Session) (keyOpt : Option String) :
    Cart :=
  let sk := match keyOpt with
    | some k => if k = "" then CART_SESSION_KEY else k
    | none => CART_SESSION_KEY
  match dictGet session.data sk with
  | some rep => { entries := rebuildLoop resolve rep [], session_key := sk }
  | none => { entries := [], session_key := sk }

/-- Cart.items: the list of stored CartItem values. -/
def Cart.items (c : Cart) : List CartItem :=
  c.entries.map Prod.snd

/-- Cart.products: the stored products. -/
def Cart.products (c : Cart) : List Product :=
  c.items.map CartItem.product

/-- Cart.count: sum of all quantities. -/
def Cart.count (c : Cart) : Int :=
  (c.items.map CartItem.quantity).sum

/-- Cart.unique_count: number of entries in the mapping. -/
def Cart.unique_count (c : Cart) : Nat :=
  c.entries.length

/-- Cart.is_empty. -/
def Cart.is_empty (c : Cart) : Bool :=
  c.unique_count = 0

/-- Cart.total: sum of all subtotals. -/
def Cart.total (c : Cart) : Rat :=
  (c.items.map CartItem.subtotal).sum

/-- Serialization loop of `cart_serializable`: each item is recorded under
the recomputed composite key; the first `to_dict` failure aborts with its
exception. -/
def serializeItems : List CartItem → SerializedRep → Except PyErr SerializedRep
  | [], acc => .ok acc
  | it :: rest, acc =>
    match it.to_dict with
    | .ok d =>
        serializeItems rest
          (dictSet acc (it.product_type ++ "-" ++ toString it.product.id) d)
    | .error e => .error e

/-- Cart.cart_serializable. -/
def Cart.cart_serializable (c : Cart) : Except PyErr SerializedRep :=
  serializeItems c.items []

/-- Cart.update_session: serialize, write the result to
`session[session_key]` and set the dirty flag.  When serialization raises,
the store is untouched (the right-hand side is evaluated first). -/
def Cart.update_session (c : Cart) (s : Session) : Session × Option PyErr :=
  match c.cart_serializable with
  | .ok rep => ({ data := dictSet s.data c.session_key rep, modified := true }, none)
  | .error e => (s, some e)

/-- Result of a mutating operation: the cart and session at return or at the
point of the raise, plus the exception when one propagates. -/
structure OpResult where
  cart : Cart
  session : Session
  err : Option PyErr
deriving DecidableEq, Repr

/-- Shared tail of the mutating operations: `self.update_session()` on the
already-mutated cart. -/
def finishUpdate (c : Cart) (s : Session) : OpResult :=
  let r := c.update_session s
  { cart := c, session := r.1, err := r.2 }

/-- Cart.add. Validation: quantity below 1 and missing price for a new
product raise `ValueError`.  For a present product the quantity of the
stored item is increased and the price argument ignored; for an absent one
the product is resolved and, only when the resolver finds it, a new item is
stored; `update_session` runs in either case. -/
def Cart.add (resolve : Resolver) (c : Cart) (s : Session) (product : Product)
    (price : Option Rat) (quantity : Int) : OpResult :=
  if quantity < 1 then
    { cart := c, session := s
      err := some (.valueError "Quantity must be at least 1 when adding to cart") }
  else if product ∈ c.products then
    match dictGet c.entries (Key.s (prodKey product)) with
    | some it =>
        finishUpdate
          { c with entries := (dictSet c.entries (Key.s (prodKey product))
              { it with quantity := it.quantity + quantity }) } s
    | none => { cart := c, session := s, err := some (.keyError (Key.s (prodKey product))) }
  else
    match price with
    | none =>
        { cart := c, session := s
          err := some (.valueError "Missing price when adding to cart") }
    | some pr =>
        match resolve product.module product.id with
        | some item =>
            finishUpdate
              { c with entries := (dictSet c.entries (Key.s (prodKey product))
                  (CartItem.make item product.ptype quantity pr)) } s
        | none => finishUpdate c s

/-- Cart.remove: when the product is among the stored products, delete the
binding at `"{product_type}-{product.id}"` and update the session; a silent
no-op otherwise. -/
def Cart.remove (c : Cart) (s : Session) (product : Product) (product_type : String) :
    OpResult :=
  if product ∈ c.products then
    match delE c.entries (Key.s (product_type ++ "-" ++ toString product.id)) with
    | .ok es => finishUpdate { c with entries := es } s
    | .error e => { cart := c, session := s, err := some e }
  else
    { cart := c, session := s, err := none }

/-- Cart.remove_single: when the product is present, drop the entry if its
stored quantity is at most 1, decrement it otherwise, then update the
session. -/
def Cart.remove_single (c : Cart) (s : Session) (product : Product)
    (product_type : String) : OpResult :=
  if product ∈ c.products then
    let k := Key.s (product_type ++ "-" ++ toString product.id)
    match dictGet c.entries k with
    | some it =>
        if it.quantity ≤ 1 then
          finishUpdate { c with entries := dictErase c.entries k } s
        else
          finishUpdate
            { c with entries := dictSet c.entries k { it with quantity := it.quantity - 1 } } s
    | none => { cart := c, session := s, err := some (.keyError k) }
  else
    { cart := c, session := s, err := none }

/-- Cart.clear: empty the mapping and update the session. -/
def Cart.clear (c : Cart) (s : Session) : OpResult :=
  finishUpdate { c with entries := [] } s

/-- Cart.set_quantity.  A negative quantity raises `ValueError`.  For a
present product the stored quantity becomes the given one; when the re-read
quantity is below 1 the code deletes `self._items_dict[product.pk]` — the
integer primary key, not the composite string key — and then updates the
session. -/
def Cart.set_quantity (c : Cart) (s : Session) (product : Product)
    (quantity : Int) : OpResult :=
  if quantity < 0 then
    { cart := c, session := s
      err := some (.valueError "Quantity must be positive when updating cart") }
  else if product ∈ c.products then
    let k := Key.s (prodKey product)
    match dictGet c.entries k with
    | some it =>
        let es1 := dictSet c.entries k { it with quantity := quantity }
        match dictGet es1 k with
        | some it2 =>
            if it2.quantity < 1 then
              match delE es1 (Key.i product.pk) with
              | .ok es2 => finishUpdate { c with entries := es2 } s
              | .error e => { cart := { c with entries := es1 }, session := s, err := some e }
            else
              finishUpdate { c with entries := es1 } s
        | none => { cart := { c with entries := es1 }, session := s
                    err := some (.keyError k) }
    | none => { cart := c, session := s, err := some (.keyError k) }
  else
    { cart := c, session := s, err := none }

/-- The data-model invariant from the spec: every key equals the
`unique_id` of its item, no stored quantity is below 1, and keys are
duplicate-free. -/
def Cart.invariant (c : Cart) : Prop :=
  (∀ kv ∈ c.entries, kv.1 = Key.s kv.2.unique_id ∧ 1 ≤ kv.2.quantity) ∧
    (c.entries.map Prod.fst).Nodup

instance (c : Cart) : Decidable c.invariant := by
  unfold Cart.invariant
  infer_instance

section DictLemmas

variable {α β : Type} [DecidableEq α]

theorem dictGet_set_self (l : List (α × β)) (k : α) (v : β) :
    dictGet (dictSet l k v) k = some v := by
  induction l with
  | nil => simp [dictSet, dictGet]
  | cons kv rest ih =>
    by_cases h : kv.1 = k
    · simp [dictSet, dictGet, h]
    · simp [dictSet, dictGet, h, ih]

theorem dictGet_set_ne (l : List (α × β)) (k k' : α) (v : β) (h : k' ≠ k) :
    dictGet (dictSet l k v) k' = dictGet l k' := by
  induction l with
  | nil => simp [dictSet, dictGet, Ne.symm h]
  | cons kv rest ih =>
    by_cases hk : kv.1 = k
    · have hkv : ¬ kv.1 = k' := by
        rw [hk]
        exact Ne.symm h
      simp [dictSet, if_pos hk, dictGet, Ne.symm h, hkv]
    · by_cases hk' : kv.1 = k'
      · simp [dictSet, if_neg hk, dictGet, if_pos hk']
      · simp [dictSet, if_neg hk, dictGet, if_neg hk', ih]

theorem dictGet_of_notMem_keys (l : List (α × β)) (k : α)
    (h : k ∉ l.map Prod.fst) : dictGet l k = none := by
  induction l with
  | nil => rfl
  | cons kv rest ih =>
    simp only [List.map_cons, List.mem_cons] at h
    push_neg at h
    simp [dictGet, Ne.symm h.1, ih h.2]

theorem dictGet_none_iff (l : List (α × β)) (k : α) :
    dictGet l k = none ↔ ∀ kv ∈ l, kv.1 ≠ k := by
  induction l with
  | nil => simp [dictGet]
  | cons kv rest ih =>
    by_cases h : kv.1 = k
    · simp [dictGet, h]
    · simp [dictGet, h, ih]

theorem dictSet_of_get_none (l : List (α × β)) (k : α) (v : β)
    (h : dictGet l k = none) : dictSet l k v = l ++ [(k, v)] := by
  induction l with
  | nil => rfl
  | cons kv rest ih =>
    by_cases hk : kv.1 = k
    · simp [dictGet, hk] at h
    · simp only [dictGet, if_neg hk] at h
      simp [dictSet, hk, ih h]

theorem mem_of_dictGet (l : List (α × β)) (k : α) (v : β)
    (h : dictGet l k = some v) : (k, v) ∈ l := by
  induction l with
  | nil => simp [dictGet] at h
  | cons kv rest ih =>
    by_cases hk : kv.1 = k
    · simp only [dictGet, if_pos hk, Option.some.injEq] at h
      have hkv : (k, v) = kv := by
        cases kv
        simp_all
      rw [hkv]
      exact List.mem_cons_self _ _
    · simp only [dictGet, if_neg hk] at h
      exact List.mem_cons_of_mem _ (ih h)

theorem dictGet_erase_ne (l : List (α × β)) (k k' : α) (h : k' ≠ k) :
    dictGet (dictErase l k) k' = dictGet l k' := by
  induction l with
  | nil => rfl
  | cons kv rest ih =>
    by_cases hk : kv.1 = k
    · have hkv : ¬ kv.1 = k' := by
        rw [hk]
        exact Ne.symm h
      simp [dictErase, if_pos hk, dictGet, hkv]
    · simp [dictErase, if_neg hk, dictGet, ih]

theorem dictGet_erase_self (l : List (α × β)) (k : α)
    (h : (l.map Prod.fst).Nodup) : dictGet (dictErase l k) k = none := by
  induction l with
  | nil => rfl
  | cons kv rest ih =>
    simp only [List.map_cons, List.nodup_cons] at h
    by_cases hk : kv.1 = k
    · subst hk
      simp [dictErase, dictGet_of_notMem_keys rest kv.1 h.1]
    · simp [dictErase, dictGet, hk, ih h.2]

theorem dictGet_append_left_none (l l' : List (α × β)) (k : α)
    (h : dictGet l k = none) : dictGet (l ++ l') k = dictGet l' k := by
  induction l with
  | nil => rfl
  | cons kv rest ih =>
    by_cases hk : kv.1 = k
    · simp [dictGet, hk] at h
    · simp only [dictGet, if_neg hk] at h
      simp [dictGet, hk, ih h]

omit [DecidableEq α] in
theorem get_eq_of_mem_of_keysNodup (l : List (α × β)) (k : α) (v v' : β)
    (hnd : (l.map Prod.fst).Nodup) (h : (k, v) ∈ l) (h' : (k, v') ∈ l) :
    v = v' := by
  induction l with
  | nil => simp at h
  | cons kv rest ih =>
    simp only [List.map_cons, List.nodup_cons] at hnd
    rcases List.mem_cons.mp h with h1 | h1 <;>
      rcases List.mem_cons.mp h' with h2 | h2
    · exact congrArg Prod.snd (h1.trans h2.symm)
    · exfalso
      have hk : k = kv.1 := congrArg Prod.fst h1
      exact hnd.1 (hk ▸ List.mem_map.mpr ⟨(k, v'), h2, rfl⟩)
    · exfalso
      have hk : k = kv.1 := congrArg Prod.fst h2
      exact hnd.1 (hk ▸ List.mem_map.mpr ⟨(k, v), h1, rfl⟩)
    · exact ih hnd.2 h1 h2

end DictLemmas

/-- Sum of quantities over the raw entries list. -/
def qsum (es : Entries) : Int :=
  (es.map fun kv => kv.2.quantity).sum

theorem count_eq_qsum (c : Cart) : c.count = qsum c.entries := by
  simp only [Cart.count, Cart.items, qsum, List.map_map]
  rfl

theorem qsum_append (es es' : Entries) : qsum (es ++ es') = qsum es + qsum es' := by
  simp [qsum]

theorem qsum_set_of_get (es : Entries) (k : Key) (it v : CartItem)
    (h : dictGet es k = some it) :
    qsum (dictSet es k v) = qsum es - it.quantity + v.quantity := by
  induction es with
  | nil => simp [dictGet] at h
  | cons kv rest ih =>
    by_cases hk : kv.1 = k
    · simp only [dictGet, if_pos hk, Option.some.injEq] at h
      simp only [dictSet, if_pos hk, qsum, List.map_cons, List.sum_cons, h]
      ring
    · simp only [dictGet, if_neg hk] at h
      have h2 := ih h
      simp only [dictSet, if_neg hk, qsum, List.map_cons, List.sum_cons] at h2 ⊢
      rw [h2]
      ring

theorem length_set_of_get (es : Entries) (k : Key) (it v : CartItem)
    (h : dictGet es k = some it) : (dictSet es k v).length = es.length := by
  induction es with
  | nil => simp [dictGet] at h
  | cons kv rest ih =>
    by_cases hk : kv.1 = k
    · simp [dictSet, hk]
    · simp only [dictGet, if_neg hk] at h
      simp [dictSet, hk, ih h]

/-! Concrete fixtures used by counterexample and witness theorems. -/

/-- A Resource-type product with id 1. -/
def pR : Product :=
  { id := 1, ptype := "Resource", module := "shop.models.Resource"
    name := "res", title := "Res" }

/-- A non-Resource product with id 2 (product type "Gizmo"). -/
def pG : Product :=
  { id := 2, ptype := "Gizmo", module := "shop.models.Gizmo"
    name := "giz", title := "Giz" }

/-- A second Resource-type product with id 3, used as a fresh product. -/
def pR3 : Product :=
  { id := 3, ptype := "Resource", module := "shop.models.Resource"
    name := "res3", title := "Res3" }

/-- Cart item for `pR` with quantity 2 at unit price 5. -/
def itemR : CartItem := CartItem.make pR "Resource" 2 5

/-- Cart item for `pG` with quantity 1 at unit price 3. -/
def itemG : CartItem := CartItem.make pG "Gizmo" 1 3

/-- A one-item cart holding `itemR` under its composite key. -/
def cartR : Cart :=
  { entries := [(Key.s "Resource-1", itemR)], session_key := "CART" }

/-- A one-item cart holding the non-Resource `itemG`. -/
def cartG : Cart :=
  { entries := [(Key.s "Gizmo-2", itemG)], session_key := "CART" }

/-- An empty session store. -/
def sess0 : Session := { data := [], modified := false }

/-- A resolver fixture knowing `pR`, `pG` and `pR3` by module and id. -/
def resolveFix : Resolver := fun m i =>
  if m = "shop.models.Resource" ∧ i = 1 then some pR
  else if m = "shop.models.Gizmo" ∧ i = 2 then some pG
  else if m = "shop.models.Resource" ∧ i = 3 then some pR3
  else none

/-- C1: counterexample evaluation.  On a cart holding product `pR`
(composite key "Resource-1", quantity 2), `set_quantity(pR, 0)` does not
remove the entry: the deletion uses the integer key `product.pk`, which is
never a key of the mapping, so a `KeyError` propagates and the entry is
still present with quantity 0.  The quantity-setting half for n ≥ 1 does
hold: `set_quantity(pR, 3)` stores quantity 3 under the composite key. -/
theorem set_quantity_zero_keyerror_entry_remains :
    (Cart.set_quantity cartR sess0 pR 0).err = some (PyErr.keyError (Key.i 1)) ∧
      dictGet (Cart.set_quantity cartR sess0 pR 0).cart.entries
        (Key.s "Resource-1") = some { itemR with quantity := 0 } ∧
      dictGet (Cart.set_quantity cartR sess0 pR 3).cart.entries
        (Key.s "Resource-1") = some { itemR with quantity := 3 } := by
  decide

/-- C3: counterexample evaluation.  A cart holding a non-Resource item
cannot be serialized at all: `to_dict` reads the unbound name `product` in
its non-Resource branch, so `cart_serializable` raises `NameError` and the
round trip never produces a serialized form. -/
theorem cart_serializable_nameerror_on_nonresource :
    Cart.cart_serializable cartG = Except.error (PyErr.nameError "product") := by
  rfl

/-- C4: counterexample evaluation.  After `set_quantity(pR, 0)` on a cart
satisfying the data-model invariant, the resulting mapping violates it: the
entry at "Resource-1" has quantity 0 (the pk-keyed delete raised `KeyError`
instead of removing it). -/
theorem set_quantity_zero_violates_invariant :
    Cart.invariant cartR ∧
      ¬ Cart.invariant (Cart.set_quantity cartR sess0 pR 0).cart := by
  decide

/-- C6: counterexample evaluation.  `add` with a valid quantity (1) and a
price, adding the fresh resolvable product `pR3` to a cart that holds a
non-Resource item, raises `NameError` out of the serialization step —
an input condition outside the claimed validation errors.  The session is
left untouched and not flagged dirty. -/
theorem add_valid_input_raises_nameerror :
    (Cart.add resolveFix cartG sess0 pR3 (some 5) 1).err =
        some (PyErr.nameError "product") ∧
      (Cart.add resolveFix cartG sess0 pR3 (some 5) 1).session = sess0 := by
  decide

/-- C9: atomicity of the caller-validation failures.  When `add` raises for
a quantity below 1 or for a missing price on a product not in the cart, and
when `set_quantity` raises for a negative quantity, the raise happens before
any mutation: the items mapping, the store contents and the dirty flag are
exactly as before the call. -/
theorem validation_failure_leaves_state_unchanged
    (resolve : Resolver) (c : Cart) (s : Session) (product : Product) :
    (∀ pr q, q < 1 →
      (Cart.add resolve c s product pr q).cart = c ∧
        (Cart.add resolve c s product pr q).session = s) ∧
    (∀ q, 1 ≤ q → product ∉ c.products →
      (Cart.add resolve c s product none q).cart = c ∧
        (Cart.add resolve c s product none q).session = s) ∧
    (∀ q, q < 0 →
      (Cart.set_quantity c s product q).cart = c ∧
        (Cart.set_quantity c s product q).session = s) := by
  refine ⟨?_, ?_, ?_⟩
  · intro pr q hq
    simp [Cart.add, hq]
  · intro q hq hnm
    have hq1 : ¬ q < 1 := not_lt.mpr hq
    simp [Cart.add, hq1, hnm]
  · intro q hq
    simp [Cart.set_quantity, hq]

/-- C9 witness: the three validation failures on concrete carts leave the
cart and session untouched. -/
theorem validation_failure_leaves_state_unchanged_witness :
    (Cart.add resolveFix cartR sess0 pR (some 5) 0).cart = cartR ∧
      (Cart.add resolveFix cartR sess0 pR (some 5) 0).session = sess0 ∧
      (Cart.add resolveFix cartR sess0 pR3 none 1).cart = cartR ∧
      (Cart.add resolveFix cartR sess0 pR3 none 1).session = sess0 ∧
      (Cart.set_quantity cartR sess0 pR (-1)).cart = cartR ∧
      (Cart.set_quantity cartR sess0 pR (-1)).session = sess0 := by
  have h := validation_failure_leaves_state_unchanged resolveFix cartR sess0 pR
  have h3 := validation_failure_leaves_state_unchanged resolveFix cartR sess0 pR3
  exact ⟨(h.1 (some 5) 0 (by decide)).1, (h.1 (some 5) 0 (by decide)).2,
    (h3.2.1 1 (by decide) (by decide)).1, (h3.2.1 1 (by decide) (by decide)).2,
    (h.2.2 (-1) (by decide)).1, (h.2.2 (-1) (by decide)).2⟩

/-- C10: no-op mutators do not touch the store.  For a product that is not
among the cart's products, `remove` and `remove_single` return silently and
`set_quantity` either raises the negative-quantity `ValueError` or returns
silently; in every case the mapping, the store contents and the dirty flag
are unchanged. -/
theorem noop_mutators_leave_state_and_store
    (c : Cart) (s : Session) (product : Product) (product_type : String)
    (h : product ∉ c.products) :
    (Cart.remove c s product product_type).cart = c ∧
      (Cart.remove c s product product_type).session = s ∧
      (Cart.remove c s product product_type).err = none ∧
      (Cart.remove_single c s product product_type).cart = c ∧
      (Cart.remove_single c s product product_type).session = s ∧
      (Cart.remove_single c s product product_type).err = none ∧
      (∀ q, (Cart.set_quantity c s product q).cart = c ∧
        (Cart.set_quantity c s product q).session = s) := by
  refine ⟨?_, ?_, ?_, ?_, ?_, ?_, ?_⟩
  · simp [Cart.remove, h]
  · simp [Cart.remove, h]
  · simp [Cart.remove, h]
  · simp [Cart.remove_single, h]
  · simp [Cart.remove_single, h]
  · simp [Cart.remove_single, h]
  · intro q
    by_cases hq : q < 0
    · simp [Cart.set_quantity, hq]
    · simp [Cart.set_quantity, hq, h]

/-- C10 witness: removing or updating the absent product `pR3` on a concrete
one-item cart changes nothing. -/
theorem noop_mutators_leave_state_and_store_witness :
    (Cart.remove cartR sess0 pR3 "Resource").cart = cartR ∧
      (Cart.remove cartR sess0 pR3 "Resource").session = sess0 ∧
      (Cart.remove_single cartR sess0 pR3 "Resource").err = none ∧
      (Cart.set_quantity cartR sess0 pR3 4).session = sess0 := by
  have h := noop_mutators_leave_state_and_store cartR sess0 pR3 "Resource"
    (by decide)
  exact ⟨h.1, h.2.1, h.2.2.2.2.2.1, (h.2.2.2.2.2.2 4).2⟩

/-- C5: remove_single checks the stored quantity before decrementing.  For a
product stored at its composite key, the entry is deleted when the stored
quantity is at most 1, and otherwise the quantity is decremented by exactly
1 with the entry kept. -/
theorem remove_single_deletes_or_decrements
    (c : Cart) (s : Session) (product : Product) (product_type : String)
    (it : CartItem)
    (hnd : (c.entries.map Prod.fst).Nodup)
    (hk : dictGet c.entries
      (Key.s (product_type ++ "-" ++ toString product.id)) = some it)
    (hp : it.product = product) :
    (it.quantity ≤ 1 →
      dictGet (Cart.remove_single c s product product_type).cart.entries
        (Key.s (product_type ++ "-" ++ toString product.id)) = none) ∧
    (2 ≤ it.quantity →
      dictGet (Cart.remove_single c s product product_type).cart.entries
        (Key.s (product_type ++ "-" ++ toString product.id)) =
        some { it with quantity := it.quantity - 1 }) := by
  have hmem : product ∈ c.products := by
    refine List.mem_map.mpr ⟨it, ?_, hp⟩
    exact List.mem_map.mpr ⟨_, mem_of_dictGet _ _ _ hk, rfl⟩
  constructor
  · intro hle
    simp only [Cart.remove_single, if_pos hmem, dictGet, hk, if_pos hle,
      finishUpdate]
    exact dictGet_erase_self _ _ hnd
  · intro h2
    have hgt : ¬ it.quantity ≤ 1 := by omega
    simp only [Cart.remove_single, if_pos hmem, dictGet, hk, if_neg hgt,
      finishUpdate]
    exact dictGet_set_self _ _ _

/-- C5 witness: on the concrete cart where `pR` is stored with quantity 2,
`remove_single` keeps the entry and stores quantity 1. -/
theorem remove_single_deletes_or_decrements_witness :
    dictGet (Cart.remove_single cartR sess0 pR "Resource").cart.entries
      (Key.s ("Resource" ++ "-" ++ toString pR.id)) =
      some { itemR with quantity := itemR.quantity - 1 } := by
  have h := remove_single_deletes_or_decrements cartR sess0 pR "Resource" itemR
    (by decide) (by decide) (by decide)
  exact h.2 (by decide)

/-- C7: add of a valid quantity.  For a product stored at its composite key,
`count` grows by exactly the given quantity, `unique_count` is unchanged, and
the stored entry keeps its price (the price argument is ignored).  For an
absent product whose composite key is free, with a price given and the
product resolvable, `count` grows by the quantity and `unique_count` by 1. -/
theorem add_count_unique_count_price
    (resolve : Resolver) (c : Cart) (s : Session) (product : Product)
    (q : Int) (hq : 1 ≤ q) :
    (∀ it priceArg, dictGet c.entries (Key.s (prodKey product)) = some it →
      it.product = product →
      (Cart.add resolve c s product priceArg q).cart.count = c.count + q ∧
        (Cart.add resolve c s product priceArg q).cart.unique_count =
          c.unique_count ∧
        dictGet (Cart.add resolve c s product priceArg q).cart.entries
          (Key.s (prodKey product)) =
          some { it with quantity := it.quantity + q }) ∧
    (∀ pr rp, product ∉ c.products →
      dictGet c.entries (Key.s (prodKey product)) = none →
      resolve product.module product.id = some rp →
      (Cart.add resolve c s product (some pr) q).cart.count = c.count + q ∧
        (Cart.add resolve c s product (some pr) q).cart.unique_count =
          c.unique_count + 1) := by
  have hq1 : ¬ q < 1 := not_lt.mpr hq
  constructor
  · intro it priceArg hk hp
    have hmem : product ∈ c.products := by
      refine List.mem_map.mpr ⟨it, ?_, hp⟩
      exact List.mem_map.mpr ⟨_, mem_of_dictGet _ _ _ hk, rfl⟩
    simp only [Cart.add, if_neg hq1, if_pos hmem, dictGet, hk, finishUpdate]
    refine ⟨?_, ?_, ?_⟩
    · rw [count_eq_qsum, count_eq_qsum]
      show qsum (dictSet c.entries (Key.s (prodKey product))
        { it with quantity := it.quantity + q }) = qsum c.entries + q
      rw [qsum_set_of_get _ _ _ _ hk]
      show qsum c.entries - it.quantity + (it.quantity + q) = qsum c.entries + q
      ring
    · exact length_set_of_get _ _ _ _ hk
    · exact dictGet_set_self _ _ _
  · intro pr rp hnm hkn hres
    simp only [Cart.add, if_neg hq1, if_neg hnm, hres, finishUpdate]
    rw [dictSet_of_get_none _ _ _ hkn]
    constructor
    · rw [count_eq_qsum, count_eq_qsum, qsum_append]
      show qsum c.entries + ((CartItem.make rp product.ptype q pr).quantity + 0) =
        qsum c.entries + q
      simp [CartItem.make]
    · show (c.entries ++ [_]).length = c.entries.length + 1
      simp

/-- C7 witness: adding 1 more of the present product `pR` takes the concrete
cart from count 2 to 3 with the same unique count and the price untouched;
adding 2 of the fresh product `pR3` takes count to 4 and unique count to 2. -/
theorem add_count_unique_count_price_witness :
    (Cart.add resolveFix cartR sess0 pR (some 99) 1).cart.count =
        cartR.count + 1 ∧
      (Cart.add resolveFix cartR sess0 pR (some 99) 1).cart.unique_count =
        cartR.unique_count ∧
      dictGet (Cart.add resolveFix cartR sess0 pR (some 99) 1).cart.entries
        (Key.s (prodKey pR)) =
        some { itemR with quantity := itemR.quantity + 1 } ∧
      (Cart.add resolveFix cartR sess0 pR3 (some 7) 2).cart.count =
        cartR.count + 2 ∧
      (Cart.add resolveFix cartR sess0 pR3 (some 7) 2).cart.unique_count =
        cartR.unique_count + 1 := by
  have h := add_count_unique_count_price resolveFix cartR sess0 pR 1 (by decide)
  have h3 := add_count_unique_count_price resolveFix cartR sess0 pR3 2 (by decide)
  have hp := h.1 itemR (some 99) (by decide) (by decide)
  have ha := h3.2 7 pR3 (by decide) (by decide) (by decide)
  exact ⟨hp.1, hp.2.1, hp.2.2, ha.1, ha.2⟩

/-- The store is synchronized with the cart: the slot at the cart's session
key holds the cart's current full serialization and the dirty flag is set. -/
def sessionSynced (r : OpResult) : Prop :=
  ∃ rep, r.cart.cart_serializable = Except.ok rep ∧
    dictGet r.session.data r.cart.session_key = some rep ∧
    r.session.modified = true

theorem sessionSynced_finishUpdate (c : Cart) (s : Session)
    (h : (finishUpdate c s).err = none) : sessionSynced (finishUpdate c s) := by
  cases hs : c.cart_serializable with
  | ok rep =>
    refine ⟨rep, hs, ?_, ?_⟩ <;>
      simp [finishUpdate, Cart.update_session, hs, dictGet_set_self]
  | error e =>
    exfalso
    simp [finishUpdate, Cart.update_session, hs] at h

theorem add_shape (resolve : Resolver) (c : Cart) (s : Session)
    (product : Product) (pr : Option Rat) (q : Int) :
    (Cart.add resolve c s product pr q).err ≠ none ∨
      ∃ c', Cart.add resolve c s product pr q = finishUpdate c' s := by
  simp only [Cart.add]
  repeat' split
  all_goals first
    | (right; exact ⟨_, rfl⟩)
    | (left; simp)

theorem remove_shape (c : Cart) (s : Session) (product : Product)
    (product_type : String) (hmem : product ∈ c.products) :
    (Cart.remove c s product product_type).err ≠ none ∨
      ∃ c', Cart.remove c s product product_type = finishUpdate c' s := by
  simp only [Cart.remove, if_pos hmem]
  repeat' split
  all_goals first
    | (right; exact ⟨_, rfl⟩)
    | (left; simp)

theorem remove_single_shape (c : Cart) (s : Session) (product : Product)
    (product_type : String) (hmem : product ∈ c.products) :
    (Cart.remove_single c s product product_type).err ≠ none ∨
      ∃ c', Cart.remove_single c s product product_type = finishUpdate c' s := by
  simp only [Cart.remove_single, if_pos hmem]
  repeat' split
  all_goals first
    | (right; exact ⟨_, rfl⟩)
    | (left; simp)

theorem set_quantity_shape (c : Cart) (s : Session) (product : Product)
    (q : Int) (hmem : product ∈ c.products) :
    (Cart.set_quantity c s product q).err ≠ none ∨
      ∃ c', Cart.set_quantity c s product q = finishUpdate c' s := by
  simp only [Cart.set_quantity, if_pos hmem]
  repeat' split
  all_goals first
    | (right; exact ⟨_, rfl⟩)
    | (left; simp)

/-- C8: every mutating operation that returns without raising has, on
return, pushed the cart's full serialization into the store at the session
key and set the dirty flag (`remove`, `remove_single` and `set_quantity`
taken on a present product, since on an absent one they are silent no-ops
covered by the frame property). -/
theorem mutators_success_update_session
    (resolve : Resolver) (c : Cart) (s : Session) (product : Product)
    (product_type : String) :
    (∀ pr q, (Cart.add resolve c s product pr q).err = none →
      sessionSynced (Cart.add resolve c s product pr q)) ∧
    (product ∈ c.products →
      ((Cart.remove c s product product_type).err = none →
        sessionSynced (Cart.remove c s product product_type)) ∧
      ((Cart.remove_single c s product product_type).err = none →
        sessionSynced (Cart.remove_single c s product product_type)) ∧
      (∀ q, (Cart.set_quantity c s product q).err = none →
        sessionSynced (Cart.set_quantity c s product q))) ∧
    ((Cart.clear c s).err = none → sessionSynced (Cart.clear c s)) := by
  refine ⟨?_, fun hmem => ⟨?_, ?_, ?_⟩, ?_⟩
  · intro pr q h
    rcases add_shape resolve c s product pr q with hsh | ⟨c', hc'⟩
    · exact absurd h hsh
    · rw [hc'] at h ⊢
      exact sessionSynced_finishUpdate _ _ h
  · intro h
    rcases remove_shape c s product product_type hmem with hsh | ⟨c', hc'⟩
    · exact absurd h hsh
    · rw [hc'] at h ⊢
      exact sessionSynced_finishUpdate _ _ h
  · intro h
    rcases remove_single_shape c s product product_type hmem with hsh | ⟨c', hc'⟩
    · exact absurd h hsh
    · rw [hc'] at h ⊢
      exact sessionSynced_finishUpdate _ _ h
  · intro q h
    rcases set_quantity_shape c s product q hmem with hsh | ⟨c', hc'⟩
    · exact absurd h hsh
    · rw [hc'] at h ⊢
      exact sessionSynced_finishUpdate _ _ h
  · intro h
    exact sessionSynced_finishUpdate _ _ h

/-- C8 witness: a successful `add` and a successful `clear` on the concrete
Resource cart leave the store holding the new serialization with the dirty
flag set, and likewise a successful `remove` of the present product. -/
theorem mutators_success_update_session_witness :
    sessionSynced (Cart.add resolveFix cartR sess0 pR (some 99) 1) ∧
      sessionSynced (Cart.remove cartR sess0 pR "Resource") ∧
      sessionSynced (Cart.remove_single cartR sess0 pR "Resource") ∧
      sessionSynced (Cart.set_quantity cartR sess0 pR 4) ∧
      sessionSynced (Cart.clear cartR sess0) := by
  have h := mutators_success_update_session resolveFix cartR sess0 pR "Resource"
  have hm := h.2.1 (by decide)
  exact ⟨h.1 (some 99) 1 (by decide), hm.1 (by decide), hm.2.1 (by decide),
    hm.2.2 4 (by decide), h.2.2 (by decide)⟩

/-- The entry rebuilt from one serialized record, when its product still
resolves; `none` when the product is gone. -/
def rebuiltEntry (resolve : Resolver) (kv : String × ItemDict) :
    Option (Key × CartItem) :=
  (resolve kv.2.product_module kv.2.product_source_id).map
    (fun p => (Key.s kv.1, CartItem.make p kv.2.product_type kv.2.quantity kv.2.price))

theorem rebuildLoop_eq (resolve : Resolver) (rep : SerializedRep) :
    ∀ es : Entries, (rep.map Prod.fst).Nodup →
      (∀ k, k ∈ rep.map Prod.fst → dictGet es (Key.s k) = none) →
      rebuildLoop resolve rep es = es ++ rep.filterMap (rebuiltEntry resolve) := by
  induction rep with
  | nil =>
    intro es _ _
    simp [rebuildLoop]
  | cons kv rest ih =>
    intro es hnd hfresh
    obtain ⟨k, v⟩ := kv
    simp only [List.map_cons, List.nodup_cons] at hnd
    cases hres : resolve v.product_module v.product_source_id with
    | none =>
      simp only [rebuildLoop, hres]
      rw [ih _ hnd.2 (fun k' hk' => hfresh k' (List.mem_cons_of_mem _ hk'))]
      simp [List.filterMap_cons, rebuiltEntry, hres]
    | some p =>
      simp only [rebuildLoop, hres]
      have hefresh : dictGet es (Key.s k) = none :=
        hfresh k (List.mem_cons_self _ _)
      rw [dictSet_of_get_none _ _ _ hefresh]
      have hfresh2 : ∀ k', k' ∈ rest.map Prod.fst →
          dictGet (es ++ [(Key.s k, CartItem.make p v.product_type v.quantity
            v.price)]) (Key.s k') = none := by
        intro k' hk'
        have hne : k ≠ k' := fun hh => hnd.1 (hh ▸ hk')
        rw [dictGet_append_left_none _ _ _
          (hfresh k' (List.mem_cons_of_mem _ hk'))]
        simp [dictGet, Key.s.injEq, hne]
      rw [ih _ hnd.2 hfresh2]
      simp [List.filterMap_cons, rebuiltEntry, hres, List.append_assoc]

/-- C2: constructing a cart from a store whose serialized cart contains
entries whose products no longer resolve raises nothing and yields exactly
the entries with still-resolvable products, rebuilt under their stored keys;
in particular, the key of every unresolvable entry is absent from the
result. -/
theorem init_drops_unresolvable_rebuilds_resolvable
    (resolve : Resolver) (session : Session) (key : String)
    (rep : SerializedRep) (hkey : key ≠ "")
    (hin : dictGet session.data key = some rep)
    (hnd : (rep.map Prod.fst).Nodup) :
    (Cart.init resolve session (some key)).entries =
        rep.filterMap (rebuiltEntry resolve) ∧
      ∀ k v, (k, v) ∈ rep →
        resolve v.product_module v.product_source_id = none →
        dictGet (Cart.init resolve session (some key)).entries (Key.s k) =
          none := by
  have hchar : (Cart.init resolve session (some key)).entries =
      rep.filterMap (rebuiltEntry resolve) := by
    simp only [Cart.init, if_neg hkey, hin]
    exact rebuildLoop_eq resolve rep [] hnd (fun _ _ => rfl)
  refine ⟨hchar, ?_⟩
  intro k v hmem hres
  rw [hchar, dictGet_none_iff]
  intro kv' hkv'
  obtain ⟨a, ha, hfa⟩ := List.mem_filterMap.mp hkv'
  cases hra : resolve a.2.product_module a.2.product_source_id with
  | none =>
    rw [rebuiltEntry, hra] at hfa
    simp at hfa
  | some p =>
    rw [rebuiltEntry, hra] at hfa
    simp only [Option.map_some'] at hfa
    rw [(Option.some.inj hfa).symm]
    intro heq
    have hak : a.1 = k := Key.s.inj heq
    have hav : a.2 = v := by
      refine get_eq_of_mem_of_keysNodup rep k a.2 v hnd ?_ hmem
      have : a = (k, a.2) := by
        rw [← hak]
      exact this ▸ ha
    rw [hav] at hra
    rw [hra] at hres
    exact Option.noConfusion hres

/-- Serialized record fixture for the still-resolvable product `pR`. -/
def d1 : ItemDict :=
  { name := "Res", product_module := "shop.models.Resource"
    product_type := "Resource", product_source_id := 1, quantity := 2
    price := 5 }

/-- Serialized record fixture referencing a product that no longer
resolves. -/
def d9 : ItemDict :=
  { name := "Gone", product_module := "shop.models.Gone"
    product_type := "Gone", product_source_id := 9, quantity := 1, price := 2 }

/-- A serialized cart holding one resolvable and one unresolvable entry. -/
def repW : SerializedRep := [("Resource-1", d1), ("Gone-9", d9)]

/-- A session holding `repW` under the default cart key. -/
def sessW : Session := { data := [("CART", repW)], modified := false }

/-- C2 witness: constructing from the concrete store rebuilds exactly the
resolvable entry and drops the unresolvable one. -/
theorem init_drops_unresolvable_rebuilds_resolvable_witness :
    (Cart.init resolveFix sessW (some "CART")).entries =
        [(Key.s "Resource-1", CartItem.make pR "Resource" 2 5)] ∧
      dictGet (Cart.init resolveFix sessW (some "CART")).entries
        (Key.s "Gone-9") = none := by
  have h := init_drops_unresolvable_rebuilds_resolvable resolveFix sessW "CART"
    repW (by decide) (by decide) (by decide)
  refine ⟨?_, h.2 "Gone-9" d9 (by decide) (by decide)⟩
  rw [h.1]
  decide

/-- Supporting observation for the serialization defect: on a cart whose
items are all Resource-type, serialization succeeds and rebuilding from the
serialized form with the products still resolvable reproduces the entries
exactly (keys, quantities and prices included). -/
theorem roundtrip_resource_example :
    Cart.cart_serializable cartR = Except.ok [("Resource-1", d1)] ∧
      (Cart.init resolveFix
        { data := [("CART", [("Resource-1", d1)])], modified := true }
        (some "CART")).entries = cartR.entries := by
  refine ⟨rfl, ?_⟩
  decide

end Carton
